import Mathlib

/-!
Verification of the intent-routing and structured-extraction pipeline of
`chat_app.py`, a chat-driven personal-assistant script.

The external collaborators (the completion model, the standard library's JSON
parser, the note-taking service, the calendar service) are modelled as inputs:
the model's reply text, the parse function `loads`, and the outcome of each
outbound write are parameters of the embedded functions.  Python-specific
behaviour that the script relies on — truthiness, `str.replace` (which
replaces every occurrence), `str.strip`, `str.split`, `dict.get` versus
`dict[...]` subscripting, and which exceptions each `except` clause catches —
is embedded explicitly.
-/

/-- JSON values: the possible results of Python's `json.loads`.
Numbers are modelled as integers (no claim involves fractional values). -/
inductive Json where
  | null
  | bool (b : Bool)
  | num (n : Int)
  | str (s : String)
  | arr (elems : List Json)
  | obj (fields : List (String × Json))

/-- Python truthiness of a JSON-decoded value (`if x:`):
None, False, 0, "", [], and the empty dict are falsy. -/
def Json.truthy : Json → Bool
  | .null => false
  | .bool b => b
  | .num n => n != 0
  | .str s => s != ("")
  | .arr elems => !elems.isEmpty
  | .obj fields => !fields.isEmpty

/-- Truthiness of `dict.get(k)`: a missing key yields Python `None`, falsy. -/
def optTruthy : Option Json → Bool
  | none => false
  | some j => j.truthy

/-- First association for a key, as in a Python dict without duplicate keys. -/
def assocFind : List (String × Json) → String → Option Json
  | [], _ => none
  | (k', v) :: rest, k => if k' = k then some v else assocFind rest k

/-- Models `d.get(k)` / `d[k]` lookup on a dict.  On a non-dict it returns
`none`; call sites that would raise in Python (subscripting or `.get` on a
non-dict) guard for that case explicitly. -/
def Json.lookup : Json → String → Option Json
  | .obj fields, k => assocFind fields k
  | _, _ => none

/-- Whether the value is a dict (`.get` and `[...]=` only work on dicts). -/
def Json.isObj : Json → Bool
  | .obj _ => true
  | _ => false

/-- Models Python's `x == "lit"` for a value obtained with `dict.get`:
true exactly when the value is present and is the given string. -/
def isStr : Option Json → String → Bool
  | some (Json.str t), s => t == s
  | _, _ => false

/-- Update or append a key, as Python dict assignment does (a new key is
appended in insertion order). -/
def setAssoc : List (String × Json) → String → Json → List (String × Json)
  | [], k, v => [(k, v)]
  | (k', v') :: rest, k, v =>
    if k' = k then (k, v) :: rest else (k', v') :: setAssoc rest k v

/-- Models `d[k] = v` on a dict; on a non-dict value it is the identity
(call sites guard the dict case, where Python would raise). -/
def Json.setKey : Json → String → Json → Json
  | .obj fields, k, v => .obj (setAssoc fields k v)
  | j, _, _ => j

/-- Substring test on character lists: some suffix of `s` starts with `pat`. -/
def subAux (pat : List Char) : List Char → Bool
  | [] => pat.isEmpty
  | c :: cs => pat.isPrefixOf (c :: cs) || subAux pat cs

/-- Python's `pat in s` substring containment on strings. -/
def strContains (s pat : String) : Bool := subAux pat.data s.data

/-- Python's `str.lower()` (the script only routes on ASCII keywords, for
which Python and ASCII lowering agree). -/
def pyLower (s : String) : String := ⟨s.data.map Char.toLower⟩

/-- The intent chosen by the dispatcher's `if`/`elif` chain for one turn. -/
inductive Intent where
  | task
  | event
  | email
  | chat
  | unavailable
deriving DecidableEq

/-- Which collaborators were successfully initialised (the module-level
`notion`, `gcal_service`, `gemini_model` handles being non-None). -/
structure Config where
  notion : Bool
  gcal : Bool
  gemini : Bool

/-- The routing decision of the chat-input dispatcher (`if`/`elif` chain):
  1. `if notion and ("notion" in prompt_lower or "task" in prompt_lower)`
  2. `elif gcal_service and ("カレンダー" in prompt or "予定" in prompt)`
  3. `elif "email" in prompt_lower or "mail" in prompt_lower`
  4. `elif gemini_model:` generic chat
  5. `else:` fixed not-initialised message. -/
def route (cfg : Config) (prompt : String) : Intent :=
  let pl := pyLower prompt
  if cfg.notion && (strContains pl ("notion") || strContains pl ("task")) then
    Intent.task
  else if cfg.gcal && (strContains prompt ("カレンダー") || strContains prompt ("予定")) then
    Intent.event
  else if strContains pl ("email") || strContains pl ("mail") then
    Intent.email
  else if cfg.gemini then
    Intent.chat
  else
    Intent.unavailable

/-- Python's `str.strip()` whitespace characters (ASCII; the fenced model
replies the script strips only carry ASCII whitespace at the edges). -/
def pyIsSpace (c : Char) : Bool :=
  c = ' ' || c = '\t' || c = '\n' || c = '\r' || c = '\x0b' || c = '\x0c'

/-- Python's `str.strip()`: drop leading and trailing whitespace. -/
def pyStrip (s : String) : String :=
  ⟨((s.data.dropWhile pyIsSpace).reverse.dropWhile pyIsSpace).reverse⟩

/-- Replacement engine for `str.replace`: scan left to right, replacing each
non-overlapping occurrence of `pat`.  The fuel is the input length, which
bounds the number of steps; the empty-pattern case (unused by the script)
leaves the string unchanged. -/
def replaceFuel (pat repl : List Char) : Nat → List Char → List Char
  | _, [] => []
  | 0, s => s
  | fuel + 1, c :: cs =>
    if !pat.isEmpty && pat.isPrefixOf (c :: cs) then
      repl ++ replaceFuel pat repl fuel (List.drop pat.length (c :: cs))
    else
      c :: replaceFuel pat repl fuel cs

/-- Python's `s.replace(pat, repl)`: replaces every occurrence of `pat`. -/
def pyReplace (s pat repl : String) : String :=
  ⟨replaceFuel pat.data repl.data s.data.length s.data⟩

/-- The text handed to `json.loads` on the Event path (line 119):
`response.text.strip().replace("```json", "").replace("```", "")`. -/
def eventJsonText (raw : String) : String :=
  pyReplace (pyReplace (pyStrip raw) ("```json") ("")) ("```") ("")

/-- The text handed to `json.loads` on the Email path (line 170):
`response.text.strip().replace("```json", "").replace("```", "")`. -/
def emailJsonText (raw : String) : String :=
  pyReplace (pyReplace (pyStrip raw) ("```json") ("")) ("```") ("")

/-- The text handed to `json.loads` on the Task path (line 231):
`response.text.strip().replace("```json", "").replace("```", "")`. -/
def taskJsonText (raw : String) : String :=
  pyReplace (pyReplace (pyStrip raw) ("```json") ("")) ("```") ("")

/-- Modelled from the spec's words for comparison only: "take the model's raw
text response, remove leading/trailing fence markers (the literal substrings
that open/close a JSON code fence), then parse the remainder" — i.e. remove
one leading opening marker and one trailing closing marker, leaving interior
occurrences untouched. -/
def specFenceStrip (raw : String) : String :=
  let t := (pyStrip raw).data
  let t1 := if ("```json").data.isPrefixOf t then t.drop 7 else t
  let t2 := if ("```").data.isPrefixOf t1.reverse then (t1.reverse.drop 3).reverse else t1
  ⟨t2⟩

/-- Python's `s.split('T')[0]`: the characters before the first 'T'
(the whole string when no 'T' occurs). -/
def beforeT (s : String) : String := ⟨s.data.takeWhile (fun c => c ≠ 'T')⟩

/-- Python's `s.split(sep)` for a single-character separator. -/
def splitOnChar (sep : Char) : List Char → List (List Char)
  | [] => [[]]
  | c :: cs =>
    let r := splitOnChar sep cs
    if c = sep then [] :: r
    else
      match r with
      | [] => [[c]]
      | h :: t => (c :: h) :: t

/-- Numeric value of a digit string. -/
def digitsVal (l : List Char) : Nat := l.foldl (fun a c => a * 10 + (c.toNat - 48)) 0

/-- Length of a month in the proleptic Gregorian calendar used by
`datetime`. -/
def daysInMonth (y m : Nat) : Nat :=
  if m = 2 then
    if (y % 4 = 0 && y % 100 != 0) || y % 400 = 0 then 29 else 28
  else if m = 4 || m = 6 || m = 9 || m = 11 then 30
  else 31

/-- Models `datetime.datetime.strptime(s, '%Y-%m-%d')` succeeding: three
dash-separated digit groups (year up to four digits, month and day up to
two), in range for the calendar; year 0 and month or day 0 are rejected. -/
def dateValid (s : String) : Bool :=
  match splitOnChar '-' s.data with
  | [y, m, d] =>
    !y.isEmpty && !m.isEmpty && !d.isEmpty &&
    y.all Char.isDigit && m.all Char.isDigit && d.all Char.isDigit &&
    y.length ≤ 4 && m.length ≤ 2 && d.length ≤ 2 &&
    1 ≤ digitsVal y &&
    1 ≤ digitsVal m && digitsVal m ≤ 12 &&
    1 ≤ digitsVal d && digitsVal d ≤ daysInMonth (digitsVal y) (digitsVal m)
  | _ => false

/-- Result of running a fragment of Python code: a normal return value, or an
uncaught exception propagating out of it. -/
inductive PyResult (α : Type) where
  | ret (val : α)
  | crash

/-- Behaviour of the calendar collaborator's `events().insert(...).execute()`
call: it returns a created event (whose `htmlLink` may be absent), raises an
`HttpError`, or raises some other exception. -/
inductive InsertOutcome where
  | ok (htmlLink : Option String)
  | httpError
  | otherError

/-- An outbound write submitted to a collaborator: the Notion page-creation
payload (title content plus the optional validated date property), or the
calendar insertion body (summary, start and end values). -/
inductive Write where
  | notionTask (name : Json) (dateProp : Option String)
  | calendarInsert (summary start_time end_time : Json)

/-- The visible resolution of one dispatcher branch: a plain-text assistant
message, or an uncaught exception escaping the turn. -/
inductive TurnResult where
  | message (text : String)
  | crash

/-- Rendering of a value interpolated into an f-string.  Scalar values follow
Python exactly; container rendering is abbreviated (no claim depends on the
message text produced for container values). -/
def pyStr : Json → String
  | .null => ("None")
  | .bool true => ("True")
  | .bool false => ("False")
  | .num n => toString n
  | .str s => s
  | .arr _ => ("<list>")
  | .obj _ => ("<dict>")

/-- `parse_event_with_gemini(model, prompt)`: returns None when the model
handle is None; otherwise strips fences from the reply and parses it, with
`except Exception` turning any raise (from the completion call — modelled as
`respText = none` — or from `json.loads` — modelled as `loads` returning
`none`) into a None return. -/
def parse_event_with_gemini (loads : String → Option Json) (modelConfigured : Bool)
    (respText : Option String) : Option Json :=
  if modelConfigured = false then none
  else
    match respText with
    | none => none
    | some t => loads (eventJsonText t)

/-- `parse_email_with_gemini(model, email_body)`: identical structure to the
event parser, with its own prompt (line 170 strips fences the same way). -/
def parse_email_with_gemini (loads : String → Option Json) (modelConfigured : Bool)
    (respText : Option String) : Option Json :=
  if modelConfigured = false then none
  else
    match respText with
    | none => none
    | some t => loads (emailJsonText t)

/-- The date part of the Notion payload computed by `add_task_to_notion`:
`some dp` means the payload is built with date property `dp`
(`none` = omitted); a `none` result models `strptime` raising a `TypeError`
on a truthy non-string `due_date`, which the function's outer
`except Exception` turns into a False return before any page is created.
A falsy `due_date` skips validation; an invalid date string is warned about
and the date property silently omitted. -/
def datePayload (due_date : Option Json) : Option (Option String) :=
  if optTruthy due_date then
    match due_date with
    | some (Json.str s) => if dateValid s then some (some s) else some none
    | _ => none
  else some none

/-- `add_task_to_notion(task_name, due_date)`: returns whether the call
reported success, and the page-creation payload submitted (if any).
`createOk` is the notion collaborator's behaviour: whether
`notion.pages.create` returns normally (its raise is caught by
`except Exception`, yielding False). -/
def add_task_to_notion (notionConfigured : Bool) (createOk : Bool)
    (task_name : Json) (due_date : Option Json) : Bool × Option Write :=
  if notionConfigured = false then (false, none)
  else
    match datePayload due_date with
    | none => (false, none)
    | some dp =>
      if createOk then (true, some (Write.notionTask task_name dp))
      else (false, some (Write.notionTask task_name dp))

/-- `add_event_to_calendar(service, event_details)`: returns None when the
service handle is falsy or the owner email secret is unset; otherwise builds
the event body by subscripting `event_details['summary']`,
`['start_time']` and `['end_time']` — a missing key or a non-dict raises an
uncaught KeyError/TypeError (the `except` clause only catches `HttpError`) —
then submits the insertion.  A non-HttpError raise from the insertion is
likewise uncaught. -/
def add_event_to_calendar (serviceConfigured : Bool) (owner : String)
    (event_details : Json) (io : InsertOutcome) : PyResult (Option String) × Option Write :=
  if serviceConfigured = false then (.ret none, none)
  else if owner = ("") then (.ret none, none)
  else
    match event_details.lookup ("summary"), event_details.lookup ("start_time"),
        event_details.lookup ("end_time") with
    | some su, some stt, some en =>
      match io with
      | .ok link => (.ret link, some (Write.calendarInsert su stt en))
      | .httpError => (.ret none, some (Write.calendarInsert su stt en))
      | .otherError => (.crash, some (Write.calendarInsert su stt en))
    | _, _, _ => (.crash, none)

/-- The deadline keyword list of the email branch (line 277). -/
def DEADLINE_KEYWORDS : List String := [("〆切"), ("期限"), ("提出"), ("締切"), ("期日")]

/-- Python's `summary or ""`: the summary value when truthy, else `""`. -/
def orEmpty : Option Json → Json
  | some j => if j.truthy then j else Json.str ("")
  | none => Json.str ("")

/-- Python's `k in container` for a JSON value: substring test on strings,
membership on lists and dict keys; on None, bools and numbers `in` raises a
TypeError. -/
def pyIn (k : String) : Json → PyResult Bool
  | .str s => .ret (strContains s k)
  | .arr elems => .ret (elems.any (fun j => isStr (some j) k))
  | .obj fields => .ret (fields.any (fun kv => kv.fst == k))
  | .null => .crash
  | .bool _ => .crash
  | .num _ => .crash

/-- `any(k in j for k in ks)`: short-circuiting, propagating a raise. -/
def anyIn (ks : List String) (j : Json) : PyResult Bool :=
  match ks with
  | [] => .ret false
  | k :: rest =>
    match pyIn k j with
    | .crash => .crash
    | .ret true => .ret true
    | .ret false => anyIn rest j

/-- The email branch's deadline-override step (lines 273–287): read `action`
and `summary`, test the summary for deadline keywords, and when the action is
`"event"` and a keyword is present, force the action to `"task"` and store
the date part of `start_time` (None when `start_time` is falsy) under the
`"date"` key of the parsed dict.  Returns the (possibly overridden) local
`action` value and the (possibly mutated) parsed dict, or an uncaught raise
(`k in summary` on an unorderable value, or `.split` on a truthy non-string
`start_time`). -/
def emailOverride (parsed_info : Json) : PyResult (Option Json × Json) :=
  let action := parsed_info.lookup ("action")
  let summary := parsed_info.lookup ("summary")
  match anyIn DEADLINE_KEYWORDS (orEmpty summary) with
  | .crash => .crash
  | .ret is_deadline =>
    if is_deadline && isStr action ("event") then
      match parsed_info.lookup ("start_time") with
      | some (Json.str s) =>
        if s ≠ ("") then
          .ret (some (Json.str ("task")),
            parsed_info.setKey ("date") (Json.str (beforeT s)))
        else
          .ret (some (Json.str ("task")), parsed_info.setKey ("date") Json.null)
      | some j =>
        if j.truthy then .crash
        else .ret (some (Json.str ("task")), parsed_info.setKey ("date") Json.null)
      | none => .ret (some (Json.str ("task")), parsed_info.setKey ("date") Json.null)
    else .ret (action, parsed_info)

/-- The `(期日: ...)` suffix of the task-success messages. -/
def dueStr (due : Option Json) : String :=
  if optTruthy due then (" (期日: ") ++ pyStr ((due.getD Json.null)) ++ (")") else ("")

/-- The response text chosen by the Task branch after `add_task_to_notion`
returns: success message (with name and optional due date interpolated) or
the fixed failure message (lines 238–242). -/
def taskResultMsg (tn : Json) (due : Option Json) (ok : Bool) : TurnResult :=
  if ok then
    .message (("OK. Notionにタスク「") ++ pyStr tn ++ ("」") ++ dueStr due ++ ("を追加しました。"))
  else .message ("Failed to add task to Notion.")

/-- The Task branch (lines 198–250): ask the model for `task_name`/`due_date`
JSON, strip fences and parse, then create the Notion task when `task_name`
is truthy.  The branch body is wrapped in `try`/`except`, so a raise from the
completion call (`respText = none`, including the model handle being None)
or from `json.loads` (`loads` returning `none`) or from `.get` on a non-dict
parse result yields an error message, never a crash.  The branch is entered
only when the notion collaborator is configured, so `add_task_to_notion` is
called with a truthy handle. -/
def taskBranch (loads : String → Option Json) (geminiConfigured : Bool)
    (respText : Option String) (createOk : Bool) : TurnResult × Option Write :=
  if geminiConfigured = false then (.message ("Gemini task extraction failed"), none)
  else
    match respText with
    | none => (.message ("Gemini task extraction failed"), none)
    | some t =>
      match loads (taskJsonText t) with
      | none => (.message ("Error parsing task details from Gemini."), none)
      | some task_info =>
        if task_info.isObj = false then (.message ("Gemini task extraction failed"), none)
        else
          match task_info.lookup ("task_name") with
          | some tn =>
            if tn.truthy then
              let due := task_info.lookup ("due_date")
              let res := add_task_to_notion true createOk tn due
              (taskResultMsg tn due res.1, res.2)
            else (.message ("Could not extract task name from your request."), none)
          | none => (.message ("Could not extract task name from your request."), none)

/-- The response text chosen by the Event branch after `add_event_to_calendar`
returns (lines 257–260): the success message (which subscripts
`event_details['summary']` again — a crash if absent, though unreachable
after a successful insert) when the link is truthy, else the failure
message; an uncaught raise from the call propagates. -/
def eventResultMsg (d : Json) : PyResult (Option String) → TurnResult
  | .crash => .crash
  | .ret none => .message ("Googleカレンダーへの予定追加に失敗しました。")
  | .ret (some l) =>
    if l = ("") then .message ("Googleカレンダーへの予定追加に失敗しました。")
    else
      match d.lookup ("summary") with
      | some su =>
        .message (("承知いたしました。予定「") ++ pyStr su
          ++ ("」をGoogleカレンダーに追加しました。\n[予定を確認する](") ++ l ++ (")"))
      | none => .crash

/-- The Event branch (lines 252–262): extract event JSON, and when the result
is truthy hand it unchanged to `add_event_to_calendar` (the branch guard
`elif gcal_service and ...` guarantees the service handle is truthy). -/
def eventBranch (loads : String → Option Json) (geminiConfigured : Bool)
    (respText : Option String) (owner : String) (io : InsertOutcome) :
    TurnResult × Option Write :=
  match parse_event_with_gemini loads geminiConfigured respText with
  | none => (.message ("予定の抽出に失敗しました。日時を明確にして再度お試しください。"), none)
  | some d =>
    if d.truthy = false then
      (.message ("予定の抽出に失敗しました。日時を明確にして再度お試しください。"), none)
    else
      let res := add_event_to_calendar true owner d io
      (eventResultMsg d res.1, res.2)

/-- The response text chosen by the Email branch's event dispatch
(lines 299–302). -/
def emailEventMsg (summary : Option Json) : PyResult (Option String) → TurnResult
  | .crash => .crash
  | .ret none => .message ("Googleカレンダーへの予定追加に失敗しました。")
  | .ret (some l) =>
    if l = ("") then .message ("Googleカレンダーへの予定追加に失敗しました。")
    else
      .message (("Googleカレンダーに予定「") ++ pyStr ((summary.getD Json.null))
        ++ ("」を追加しました。\n[予定を確認する](") ++ l ++ (")"))

/-- The response text chosen by the Email branch's task dispatch
(lines 308–312). -/
def emailTaskMsg (summary : Option Json) (due : Option Json) (ok : Bool) : TurnResult :=
  if ok then
    .message (("Notionにタスク「") ++ pyStr ((summary.getD Json.null)) ++ ("」")
      ++ dueStr due ++ ("を追加しました。"))
  else .message ("Notionへのタスク追加に失敗しました。")

/-- The Email branch (lines 264–315): parse the email into a combined
classification, apply the deadline override, then dispatch on the local
`action` value: an `"event"` action builds a fresh details dict from `.get`
fields (always carrying all three keys, possibly with None values) and
inserts it; a `"task"` action with truthy summary creates a Notion task with
`parsed_info.get("date")` as due date; anything else yields the no-action
message.  The `.get` calls on a truthy non-dict parse result raise an
uncaught AttributeError. -/
def emailBranch (loads : String → Option Json) (geminiConfigured : Bool)
    (respText : Option String) (notionConfigured createOk : Bool)
    (gcalConfigured : Bool) (owner : String) (io : InsertOutcome) :
    TurnResult × Option Write :=
  match parse_email_with_gemini loads geminiConfigured respText with
  | none => (.message ("メールから構造化データの抽出に失敗しました。"), none)
  | some parsed_info =>
    if parsed_info.truthy = false then
      (.message ("メールから構造化データの抽出に失敗しました。"), none)
    else if parsed_info.isObj = false then (.crash, none)
    else
      let summary := parsed_info.lookup ("summary")
      match emailOverride parsed_info with
      | .crash => (.crash, none)
      | .ret (action, p2) =>
        if isStr action ("event") then
          let details := Json.obj
            [(("summary"), (summary.getD Json.null)),
             (("start_time"), ((parsed_info.lookup ("start_time")).getD Json.null)),
             (("end_time"), ((parsed_info.lookup ("end_time")).getD Json.null))]
          let res := add_event_to_calendar gcalConfigured owner details io
          (emailEventMsg summary res.1, res.2)
        else if isStr action ("task") && optTruthy summary then
          let due := p2.lookup ("date")
          let res := add_task_to_notion notionConfigured createOk ((summary.getD Json.null)) due
          (emailTaskMsg summary due res.1, res.2)
        else
          (.message ("メール分析の結果、カレンダー予定またはNotionタスクに該当する明確なアクションは見つかりませんでした。"), none)

/-- C1: if the task collaborator is configured and the utterance contains a
task keyword (case-insensitively), the router yields Task, regardless of any
calendar keyword also present — the task rule is tested first and
short-circuits, so the calendar rule is never reached. -/
theorem router_task_priority (cfg : Config) (p : String)
    (hn : cfg.notion = true)
    (ht : strContains (pyLower p) ("notion") = true ∨ strContains (pyLower p) ("task") = true)
    (_hc : strContains p ("カレンダー") = true ∨ strContains p ("予定") = true) :
    route cfg p = Intent.task := by
  unfold route
  rcases ht with h | h <;> simp [hn, h]

/-- Witness for `router_task_priority` at a concrete utterance containing both
a task keyword and a calendar keyword, with all collaborators configured. -/
theorem router_task_priority_witness :
    route ⟨true, true, true⟩ ("taskをカレンダーに入れて") = Intent.task :=
  router_task_priority ⟨true, true, true⟩ ("taskをカレンダーに入れて") rfl
    (Or.inr (by decide)) (Or.inl (by decide))

/-- C2 counterexample: with every collaborator configured, the utterance
"calendar" is not routed to Task, contains the case-insensitive substring
"calendar", yet the router yields Chat, not Event — the code's calendar rule
tests only the Japanese keywords カレンダー and 予定. -/
theorem router_calendar_english_counterexample :
    route ⟨true, true, true⟩ ("calendar") ≠ Intent.task ∧
    strContains (pyLower ("calendar")) ("calendar") = true ∧
    route ⟨true, true, true⟩ ("calendar") = Intent.chat ∧
    route ⟨true, true, true⟩ ("calendar") ≠ Intent.event := by
  refine ⟨by decide, by decide, by decide, by decide⟩

/-- C2 as amended: for every utterance on which the task rule does not fire,
if the calendar collaborator is configured and the utterance contains one of
the localized keywords カレンダー or 予定 (the only keywords the code tests —
the English substrings "calendar", "schedule", "event" are not checked), the
router yields Event. -/
theorem router_calendar_rule (cfg : Config) (p : String)
    (hg : cfg.gcal = true)
    (hn : (cfg.notion && (strContains (pyLower p) ("notion") || strContains (pyLower p) ("task"))) = false)
    (hc : strContains p ("カレンダー") = true ∨ strContains p ("予定") = true) :
    route cfg p = Intent.event := by
  unfold route
  rcases hc with h | h <;> simp [hg, hn, h]

/-- Witness for `router_calendar_rule` at a concrete Japanese utterance with
the calendar collaborator configured and the task rule not firing. -/
theorem router_calendar_rule_witness :
    route ⟨false, true, true⟩ ("予定を入れて") = Intent.event :=
  router_calendar_rule ⟨false, true, true⟩ ("予定を入れて") rfl (by decide)
    (Or.inr (by decide))

/-- Helper: `any(k in j for k in ks)` on a string value is the keyword scan. -/
theorem anyIn_str (ks : List String) (t : String) :
    anyIn ks (Json.str t) = PyResult.ret (ks.any (fun k => strContains t k)) := by
  induction ks with
  | nil => rfl
  | cons k rest ih =>
    unfold anyIn pyIn
    cases h : strContains t k <;> simp [h, ih]

/-- Helper: the calendar actuator never submits a Notion task payload. -/
theorem add_event_no_task (svc : Bool) (owner : String) (d : Json)
    (io : InsertOutcome) (n : Json) (dp : Option String) :
    (add_event_to_calendar svc owner d io).2 ≠ some (Write.notionTask n dp) := by
  unfold add_event_to_calendar
  split
  · simp
  · split
    · simp
    · split
      all_goals first | (split <;> simp) | simp

/-- Helper: the direct Event branch never submits a Notion task payload. -/
theorem eventBranch_no_task (loads : String → Option Json) (g : Bool)
    (r : Option String) (owner : String) (io : InsertOutcome) (n : Json)
    (dp : Option String) :
    (eventBranch loads g r owner io).2 ≠ some (Write.notionTask n dp) := by
  unfold eventBranch
  cases hpe : parse_event_with_gemini loads g r with
  | none => simp
  | some d =>
    cases htr : d.truthy with
    | false => simp [htr]
    | true =>
      simp only [htr]
      rw [if_neg (by decide)]
      exact add_event_no_task true owner d io n dp

/-- C3: on the Email path, a parsed classification whose action is "event",
whose summary is a string containing at least one deadline keyword, and whose
start time is a non-empty string is overridden: the action becomes "task" and
the `"date"` key of the record is set to the part of `start_time` before the
'T' separator.  The direct Event path applies no such override: it never
submits a task payload at all. -/
theorem email_deadline_override_fires (p : Json) (sum s : String)
    (ha : p.lookup ("action") = some (Json.str ("event")))
    (hs : p.lookup ("summary") = some (Json.str sum))
    (hk : (DEADLINE_KEYWORDS.any (fun k => strContains sum k)) = true)
    (hst : p.lookup ("start_time") = some (Json.str s))
    (hne : s ≠ ("")) :
    emailOverride p =
      PyResult.ret (some (Json.str ("task")), p.setKey ("date") (Json.str (beforeT s))) ∧
    ∀ loads g r owner io n dp,
      (eventBranch loads g r owner io).2 ≠ some (Write.notionTask n dp) := by
  refine ⟨?_, fun loads g r owner io n dp => eventBranch_no_task loads g r owner io n dp⟩
  have hsumne : sum ≠ ("") := by
    intro hcontra
    subst hcontra
    simp [DEADLINE_KEYWORDS, strContains, subAux] at hk
  have horE : orEmpty (some (Json.str sum)) = Json.str sum := by
    simp [orEmpty, Json.truthy, hsumne]
  unfold emailOverride
  simp only [ha, hs, hst, horE, anyIn_str, hk]
  simp [isStr, hne]

/-- Witness for `email_deadline_override_fires` at a concrete classification
with a Japanese deadline keyword in the summary. -/
theorem email_deadline_override_fires_witness :
    emailOverride (Json.obj
      [(("action"), Json.str ("event")),
       (("summary"), Json.str ("レポート提出の〆切")),
       (("start_time"), Json.str ("2025-04-01T10:00:00"))]) =
      PyResult.ret (some (Json.str ("task")),
        (Json.obj
          [(("action"), Json.str ("event")),
           (("summary"), Json.str ("レポート提出の〆切")),
           (("start_time"), Json.str ("2025-04-01T10:00:00"))]).setKey ("date")
          (Json.str (beforeT ("2025-04-01T10:00:00")))) :=
  (email_deadline_override_fires
    (Json.obj
      [(("action"), Json.str ("event")),
       (("summary"), Json.str ("レポート提出の〆切")),
       (("start_time"), Json.str ("2025-04-01T10:00:00"))])
    ("レポート提出の〆切") ("2025-04-01T10:00:00")
    rfl rfl (by decide) rfl (by decide)).1

/-- C4 counterexample: on the spec's own test vector — action "event",
summary "Report submission deadline", start time "2025-03-10T09:00:00" — the
override does not fire: the summary contains none of the code's deadline
keywords (all Japanese), so the action stays "event" and no due date is
derived. -/
theorem deadline_override_spec_example_counterexample :
    emailOverride (Json.obj
      [(("action"), Json.str ("event")),
       (("summary"), Json.str ("Report submission deadline")),
       (("start_time"), Json.str ("2025-03-10T09:00:00"))]) =
      PyResult.ret (some (Json.str ("event")), Json.obj
        [(("action"), Json.str ("event")),
         (("summary"), Json.str ("Report submission deadline")),
         (("start_time"), Json.str ("2025-03-10T09:00:00"))]) := rfl

/-- C4 as amended: on an Email-path classification with action "event", start
time "2025-03-10T09:00:00" and a summary containing one of the code's
(Japanese) deadline keywords, the override fires: the action becomes "task"
and the derived due date is "2025-03-10". -/
theorem deadline_override_localized_instance :
    emailOverride (Json.obj
      [(("action"), Json.str ("event")),
       (("summary"), Json.str ("報告書の提出期限")),
       (("start_time"), Json.str ("2025-03-10T09:00:00"))]) =
      PyResult.ret (some (Json.str ("task")), Json.obj
        [(("action"), Json.str ("event")),
         (("summary"), Json.str ("報告書の提出期限")),
         (("start_time"), Json.str ("2025-03-10T09:00:00")),
         (("date"), Json.str ("2025-03-10"))]) := rfl

/-- C6 (code bug): two Event-path turns whose failure escapes as an uncaught
exception instead of resolving to an assistant message: (1) the model reply
parses to valid JSON without a `summary` key, so building the event body
raises KeyError, which the `except HttpError` clause does not catch; (2) the
insertion call raises a non-HttpError exception, which is likewise
uncaught. -/
theorem event_turn_uncaught_exception :
    eventBranch (fun _ => some (Json.obj [(("foo"), Json.num 1)])) true
      (some ("```json\n\x7b\"foo\": 1\x7d\n```")) ("owner@example.com")
      (InsertOutcome.ok (some ("https://calendar/event1"))) = (TurnResult.crash, none) ∧
    eventBranch (fun _ => some (Json.obj
        [(("summary"), Json.str ("打ち合わせ")),
         (("start_time"), Json.str ("2025-05-01T10:00:00")),
         (("end_time"), Json.str ("2025-05-01T11:00:00"))])) true
      (some ("resp")) ("owner@example.com") InsertOutcome.otherError =
      (TurnResult.crash, some (Write.calendarInsert (Json.str ("打ち合わせ"))
        (Json.str ("2025-05-01T10:00:00")) (Json.str ("2025-05-01T11:00:00")))) :=
  ⟨rfl, rfl⟩

/-- C7 counterexample: the code's fence handling is not "remove only the
leading and trailing fence markers": it removes every occurrence, so a reply
whose JSON payload itself contains a fence marker is mangled.  On a fenced
object whose string value contains an interior closing marker, the code
deletes the interior marker as well, while edge-only removal keeps it. -/
theorem fence_strip_not_edge_only :
    eventJsonText ("```json\x7b\"a\": \"x```y\"\x7d```") ≠
      specFenceStrip ("```json\x7b\"a\": \"x```y\"\x7d```") ∧
    eventJsonText ("```json\x7b\"a\": \"x```y\"\x7d```") = ("\x7b\"a\": \"xy\"\x7d") ∧
    specFenceStrip ("```json\x7b\"a\": \"x```y\"\x7d```") = ("\x7b\"a\": \"x```y\"\x7d") :=
  ⟨by decide, by decide, by decide⟩

/-- C7 as amended: all three extractor sub-paths share one parsing contract —
each hands `json.loads` the raw reply stripped of surrounding whitespace with
every occurrence of "```json" and then of "```" removed (not only the
leading/trailing markers), and parses that remainder as a single JSON
value. -/
theorem shared_fence_parsing (loads : String → Option Json) (s : String) :
    eventJsonText s = taskJsonText s ∧
    emailJsonText s = taskJsonText s ∧
    taskJsonText s = pyReplace (pyReplace (pyStrip s) ("```json") ("")) ("```") ("") ∧
    parse_event_with_gemini loads true (some s) = loads (eventJsonText s) ∧
    parse_email_with_gemini loads true (some s) = loads (emailJsonText s) :=
  ⟨rfl, rfl, rfl, rfl, rfl⟩

/-- Helper: a task payload submitted by `add_task_to_notion` carries exactly
the `task_name` argument as its title content. -/
theorem add_task_name (cfg ok : Bool) (tn : Json) (due : Option Json)
    (n : Json) (dp : Option String)
    (h : (add_task_to_notion cfg ok tn due).2 = some (Write.notionTask n dp)) :
    n = tn := by
  unfold add_task_to_notion at h
  split at h
  · simp at h
  · split at h
    · simp at h
    · split at h <;> (simp at h; exact h.1.symm)

/-- Helper: any task payload the Task branch submits has a truthy name. -/
theorem taskBranch_write_name (loads : String → Option Json) (g : Bool)
    (r : Option String) (ok : Bool) (n : Json) (dp : Option String)
    (h : (taskBranch loads g r ok).2 = some (Write.notionTask n dp)) :
    n.truthy = true := by
  unfold taskBranch at h
  split at h
  · simp at h
  · split at h
    · simp at h
    · split at h
      · simp at h
      · split at h
        · simp at h
        · split at h
          · rename_i tn htn
            split at h
            · rename_i htr
              have hn := add_task_name true ok tn _ n dp h
              rw [hn]
              exact htr
            · simp at h
          · simp at h

/-- C8: when the Task-path parse yields a dict whose `task_name` is absent or
the empty string, the turn resolves to the fixed no-task-name message and no
task write is submitted; conversely, every task payload the Task branch ever
submits carries a truthy (non-empty) name. -/
theorem task_name_invariant (loads : String → Option Json) (t : String)
    (info : Json) (createOk : Bool)
    (hp : loads (taskJsonText t) = some info)
    (hobj : info.isObj = true)
    (hname : info.lookup ("task_name") = none ∨
      info.lookup ("task_name") = some (Json.str (""))) :
    taskBranch loads true (some t) createOk =
      (TurnResult.message ("Could not extract task name from your request."), none) ∧
    ∀ loads2 g r ok n dp,
      (taskBranch loads2 g r ok).2 = some (Write.notionTask n dp) → n.truthy = true := by
  refine ⟨?_, fun loads2 g r ok n dp h => taskBranch_write_name loads2 g r ok n dp h⟩
  rcases hname with h | h <;> simp [taskBranch, hp, hobj, h, Json.truthy]

/-- Witness for `task_name_invariant`: a parse with `task_name` equal to the
empty string resolves to the no-task-name message and no write. -/
theorem task_name_invariant_witness :
    taskBranch (fun _ => some (Json.obj [(("task_name"), Json.str (""))])) true
      (some ("x2")) true =
      (TurnResult.message ("Could not extract task name from your request."), none) :=
  (task_name_invariant (fun _ => some (Json.obj [(("task_name"), Json.str (""))]))
    ("x2") (Json.obj [(("task_name"), Json.str (""))]) true rfl rfl (Or.inr rfl)).1

/-- Helper: dict assignment followed by lookup of the same key returns the
assigned value. -/
theorem assocFind_setAssoc (fs : List (String × Json)) (k : String) (v : Json) :
    assocFind (setAssoc fs k v) k = some v := by
  induction fs with
  | nil => simp [setAssoc, assocFind]
  | cons kv rest ih =>
    rcases kv with ⟨k', v'⟩
    by_cases h : k' = k
    · simp [setAssoc, assocFind, h]
    · simp [setAssoc, assocFind, h, ih]

/-- C10: on the Email path, when the deadline override fires on a
classification whose `start_time` is absent or null, the derived due date is
None, the record is still narrowed to a task, and the task is created with a
title only: the Notion payload carries no date property and the turn resolves
to the task-success message (whose due-date suffix is empty). -/
theorem email_override_null_start_time (loads : String → Option Json) (t : String)
    (fields : List (String × Json)) (sum : String) (gcal : Bool) (owner : String)
    (io : InsertOutcome)
    (hp : loads (emailJsonText t) = some (Json.obj fields))
    (ha : assocFind fields ("action") = some (Json.str ("event")))
    (hs : assocFind fields ("summary") = some (Json.str sum))
    (hsum : sum ≠ (""))
    (hk : (DEADLINE_KEYWORDS.any (fun k => strContains sum k)) = true)
    (hst : assocFind fields ("start_time") = none ∨
      assocFind fields ("start_time") = some Json.null) :
    emailBranch loads true (some t) true true gcal owner io =
      (TurnResult.message (("Notionにタスク「") ++ sum ++ ("」") ++ dueStr (some Json.null)
        ++ ("を追加しました。")),
       some (Write.notionTask (Json.str sum) none)) ∧
    dueStr (some Json.null) = ("") := by
  refine ⟨?_, rfl⟩
  have hfne : fields ≠ [] := by
    intro hcontra
    subst hcontra
    simp [assocFind] at hs
  have horE : orEmpty (some (Json.str sum)) = Json.str sum := by
    simp [orEmpty, Json.truthy, hsum]
  have hov : emailOverride (Json.obj fields) =
      PyResult.ret (some (Json.str ("task")), Json.obj (setAssoc fields ("date") Json.null)) := by
    unfold emailOverride
    simp only [Json.lookup, ha, hs, horE, anyIn_str, hk]
    rcases hst with h | h <;>
      simp [h, isStr, Json.setKey, Json.truthy]
  unfold emailBranch parse_email_with_gemini
  simp only [hp]
  have htr : (Json.obj fields).truthy = true := by
    simp [Json.truthy, hfne]
  rw [if_neg (by decide)]
  simp only [htr]
  rw [if_neg (by decide)]
  simp only [Json.isObj]
  rw [if_neg (by decide)]
  simp only [Json.lookup, hs, hov]
  have hisE : isStr (some (Json.str ("task"))) ("event") = false := by decide
  have hisT : isStr (some (Json.str ("task"))) ("task") = true := by decide
  have hstruthy : optTruthy (some (Json.str sum)) = true := by
    simp [optTruthy, Json.truthy, hsum]
  simp only [hisE, hisT, hstruthy, Bool.false_eq_true, if_false, Bool.and_self, if_true]
  simp only [Json.lookup, assocFind_setAssoc]
  simp [add_task_to_notion, datePayload, optTruthy, Json.truthy, emailTaskMsg, pyStr]

/-- Witness for `email_override_null_start_time`: an email classified as an
event with a deadline keyword in its summary and a null start time becomes a
date-less Notion task and a success message. -/
theorem email_override_null_start_time_witness :
    emailBranch (fun _ => some (Json.obj
      [(("action"), Json.str ("event")),
       (("summary"), Json.str ("請求書提出")),
       (("start_time"), Json.null)])) true (some ("e")) true true false ("")
      (InsertOutcome.ok none) =
      (TurnResult.message (("Notionにタスク「") ++ ("請求書提出") ++ ("」")
        ++ dueStr (some Json.null) ++ ("を追加しました。")),
       some (Write.notionTask (Json.str ("請求書提出")) none)) :=
  (email_override_null_start_time (fun _ => some (Json.obj
      [(("action"), Json.str ("event")),
       (("summary"), Json.str ("請求書提出")),
       (("start_time"), Json.null)])) ("e")
    [(("action"), Json.str ("event")),
     (("summary"), Json.str ("請求書提出")),
     (("start_time"), Json.null)] ("請求書提出") false ("") (InsertOutcome.ok none)
    rfl rfl rfl (by decide) (by decide) (Or.inr rfl)).1
